import Mathlib

/-!
Verification of the GAN training-orchestration core of the DeepNetworks
repository (files deep_networks/models/gan.py, iwacgan.py, discogan.py).
The Python code is shallowly embedded: Python non-negative ints are Nat,
float tensors are lists of rationals (reals where a square root occurs),
and the training loops' effects (scheduler decisions, checkpoint saves,
summary/sample events) are explicit functions of the loop state.
-/

namespace DeepNetworks

/-! ### Step-scheduler embedding, from WACGAN.train (iwacgan.py lines 315-391).

The four integer configuration parameters, in constructor order.  The
misspelling d_intial_high_rounds is the source's. -/

structure SchedCfg where
  d_iters : Nat
  d_high_iters : Nat
  d_intial_high_rounds : Nat
  d_step_high_rounds : Nat
  deriving Repr, DecidableEq

/-- Threshold initial_steps = d_high_iters * d_intial_high_rounds
(iwacgan.py line 315). -/
def initialSteps (c : SchedCfg) : Nat := c.d_high_iters * c.d_intial_high_rounds

/-- Threshold passing_steps (iwacgan.py lines 317-320). -/
def passingSteps (c : SchedCfg) : Nat :=
  initialSteps c +
    ((c.d_step_high_rounds - c.d_intial_high_rounds % c.d_step_high_rounds) %
      c.d_step_high_rounds) * c.d_iters

/-- Threshold block_steps (iwacgan.py lines 321-322). -/
def blockSteps (c : SchedCfg) : Nat :=
  c.d_high_iters + (c.d_step_high_rounds - 1) * c.d_iters

/-- Per-step scheduler decision of WACGAN.train (iwacgan.py lines 371-391):
true means a joint discriminator+generator update (train_D_G), false means
a discriminator-only update (train_D).  The branch structure follows the
source; the subtractions only matter under the guards that make them
non-negative in Python, so Nat subtraction is faithful. -/
def decideStep (c : SchedCfg) (step : Nat) : Bool :=
  if step < initialSteps c then
    if (step + 1) % c.d_high_iters ≠ 0 then false else true
  else if step < passingSteps c then
    -- passing_step = (step - initial_steps) % d_iters, inlined
    if ((step - initialSteps c) % c.d_iters + 1) % c.d_iters ≠ 0 then false
    else true
  else
    -- block_step = (step - passing_steps) % block_steps, inlined
    if (step - passingSteps c) % blockSteps c + 1 < c.d_high_iters ∨
        ((step - passingSteps c) % blockSteps c + 1 - c.d_high_iters) %
          c.d_iters ≠ 0 then false
    else true

/-- The joint-update condition exactly as the specification words it
(spec section 4.3, three positive disjuncts). -/
def specJoint (c : SchedCfg) (s : Nat) : Prop :=
  (s < initialSteps c ∧ (s + 1) % c.d_high_iters = 0) ∨
  (initialSteps c ≤ s ∧ s < passingSteps c ∧
    ((s - initialSteps c) % c.d_iters + 1) % c.d_iters = 0) ∨
  (passingSteps c ≤ s ∧
    c.d_high_iters ≤ (s - passingSteps c) % blockSteps c + 1 ∧
    ((s - passingSteps c) % blockSteps c + 1 - c.d_high_iters) % c.d_iters = 0)

/-- The sequence of scheduler decisions emitted by the training loop,
starting with loop-state step counter equal to step and running for n
batch iterations; the step counter is the only mutable loop state the
decision reads (iwacgan.py lines 369-395). -/
def loopDecisions (c : SchedCfg) : Nat → Nat → List Bool
  | _, 0 => []
  | step, n + 1 => decideStep c step :: loopDecisions c (step + 1) n

theorem loopDecisions_append (c : SchedCfg) (s a b : Nat) :
    loopDecisions c s (a + b) = loopDecisions c s a ++ loopDecisions c (s + a) b := by
  induction a generalizing s with
  | zero => simp [loopDecisions]
  | succ a ih =>
      have h : a + 1 + b = (a + b) + 1 := by omega
      have h2 : s + 1 + a = s + (a + 1) := by omega
      rw [h]
      simp only [loopDecisions, ih (s + 1), h2, List.cons_append]

theorem loopDecisions_length (c : SchedCfg) (s n : Nat) :
    (loopDecisions c s n).length = n := by
  induction n generalizing s with
  | zero => rfl
  | succ n ih => simp [loopDecisions, ih]

/-- C1: in the improved-Wasserstein loop, with d_iters, d_high_iters and
d_step_high_rounds all at least 1, the joint discriminator+generator
update happens at step s exactly when the three-branch condition of the
specification holds (warmup, transition, or steady-state formula), and a
discriminator-only update happens otherwise. -/
theorem decideStep_iff_specJoint (c : SchedCfg) (s : Nat)
    (hdi : 1 ≤ c.d_iters) (hdh : 1 ≤ c.d_high_iters)
    (hds : 1 ≤ c.d_step_high_rounds) :
    decideStep c s = true ↔ specJoint c s := by
  have hip : initialSteps c ≤ passingSteps c := Nat.le_add_right _ _
  unfold decideStep specJoint
  split_ifs with h1 hm1 h2 hm2 hor <;>
    simp only [Bool.false_eq_true, false_iff, eq_self_iff_true, true_iff] <;>
    omega

/-- Witness for C1 at the specification's scenario configuration
(d_iters 3, d_high_iters 5, d_intial_high_rounds 2, d_step_high_rounds 10)
and step 4, a warmup joint-update step. -/
theorem decideStep_iff_specJoint_witness :
    1 ≤ (3 : Nat) ∧ 1 ≤ (5 : Nat) ∧ 1 ≤ (10 : Nat) ∧
      (decideStep ⟨3, 5, 2, 10⟩ 4 = true ↔ specJoint ⟨3, 5, 2, 10⟩ 4) :=
  ⟨by decide, by decide, by decide,
    decideStep_iff_specJoint ⟨3, 5, 2, 10⟩ 4 (by decide) (by decide) (by decide)⟩

/-- C2: the scheduler decision depends only on the step counter and the
configuration; a run started fresh and advanced to step0 and a run
restarted with the step counter set to step0 produce identical decision
sequences for steps step0 through step0 + k. -/
theorem loopDecisions_resume (c : SchedCfg) (step0 k : Nat) :
    (loopDecisions c 0 (step0 + (k + 1))).drop step0 =
      loopDecisions c step0 (k + 1) := by
  rw [loopDecisions_append c 0 step0 (k + 1)]
  rw [List.drop_append_of_le_length (by rw [loopDecisions_length])]
  simp [loopDecisions_length]

/-! ### C4: behaviour of the scheduler when d_high_iters = 0.

Python raises ZeroDivisionError on a modulus by zero, so every modulus
taken while evaluating the step decision (iwacgan.py lines 371-391) is
embedded as a checked operation returning none on a zero divisor.  The
evaluation order and the short-circuiting of the or in the steady branch
follow the source. -/

/-- Checked Python modulus: none models a ZeroDivisionError. -/
def pymod (a b : Nat) : Option Nat := if b = 0 then none else some (a % b)

/-- The step decision of WACGAN.train with every modulus checked; some b
means the decision evaluates without a division by zero and yields b
(true = joint update), none means Python would raise ZeroDivisionError. -/
def decideStepChecked (c : SchedCfg) (step : Nat) : Option Bool :=
  if step < initialSteps c then
    (pymod (step + 1) c.d_high_iters).map fun m => !(m ≠ 0)
  else if step < passingSteps c then
    (pymod (step - initialSteps c) c.d_iters).bind fun p =>
      (pymod (p + 1) c.d_iters).map fun m => !(m ≠ 0)
  else
    (pymod (step - passingSteps c) (blockSteps c)).bind fun b =>
      if b + 1 < c.d_high_iters then some false
      else (pymod (b + 1 - c.d_high_iters) c.d_iters).map fun m => !(m ≠ 0)

/-- Counterexample to C4 as stated: with d_iters = 1, d_high_iters = 0,
d_intial_high_rounds = 25 and d_step_high_rounds = 1 (all within the
claim's premises), block_steps = 0 and already the decision at step 0
takes a modulus by zero, so the step decision is fatal. -/
theorem decideStepChecked_dhi_zero_counterexample :
    decideStepChecked ⟨1, 0, 25, 1⟩ 0 = none := by rfl

/-- C4 (amended): when d_high_iters = 0, d_iters ≥ 1 and
d_step_high_rounds ≥ 2, initial_steps = 0 so the WARMUP branch (the
only one taking a modulus by d_high_iters) is unreachable for every
step, and every step's decision evaluates without any modulus by zero,
agreeing with the total Nat model of the scheduler. -/
theorem decideStepChecked_dhi_zero_safe (c : SchedCfg)
    (hdh : c.d_high_iters = 0) (hdi : 1 ≤ c.d_iters)
    (hds : 2 ≤ c.d_step_high_rounds) (s : Nat) :
    initialSteps c = 0 ∧ ¬ s < initialSteps c ∧
      decideStepChecked c s = some (decideStep c s) := by
  have hinit : initialSteps c = 0 := by simp [initialSteps, hdh]
  have hblock : 1 ≤ blockSteps c := by
    unfold blockSteps
    have : 1 ≤ (c.d_step_high_rounds - 1) * c.d_iters :=
      Nat.one_le_iff_ne_zero.mpr (Nat.mul_ne_zero (by omega) (by omega))
    omega
  refine ⟨hinit, by omega, ?_⟩
  unfold decideStepChecked decideStep pymod
  split_ifs with h1 h2 hb <;> simp_all

/-- Witness for the amended C4 at the source's default configuration
(d_iters 5, d_high_iters 0, d_intial_high_rounds 25,
d_step_high_rounds 500) and step 7. -/
theorem decideStepChecked_dhi_zero_safe_witness :
    decideStepChecked ⟨5, 0, 25, 500⟩ 7 = some (decideStep ⟨5, 0, 25, 500⟩ 7) :=
  (decideStepChecked_dhi_zero_safe ⟨5, 0, 25, 500⟩ rfl (by decide) (by decide) 7).2.2

/-! ### Training loop resume bookkeeping, from GAN.train (gan.py lines
502-515) and WACGAN.train (iwacgan.py lines 303-324). -/

/-- num_batches = num_examples // batch_size (gan.py line 502). -/
def numBatches (numExamples batchSize : Nat) : Nat := numExamples / batchSize

/-- The step value after the resume attempt: the restored step on success,
0 otherwise (gan.py lines 504-512). -/
def resumedStep (success : Bool) (savedStep : Nat) : Nat :=
  if success then savedStep else 0

/-- start_epoch = step // num_batches on success, 0 otherwise
(gan.py lines 508-512). -/
def startEpoch (success : Bool) (savedStep nb : Nat) : Nat :=
  if success then savedStep / nb else 0

/-- start_idx = step % num_batches, recomputed at each epoch entry
(gan.py line 515, iwacgan.py line 324). -/
def startIdx (step nb : Nat) : Nat := step % nb

/-- C3: a successful resume restores the step and derives
start_epoch = step // num_batches and a first-epoch start_idx =
step % num_batches; with batch_size 128 and num_examples 1280,
num_batches = 10 and resuming at step 25 gives start_epoch = 2 and
start_idx = 5. -/
theorem resume_derivation (savedStep nb : Nat) :
    resumedStep true savedStep = savedStep ∧
      startEpoch true savedStep nb = savedStep / nb ∧
      startIdx (resumedStep true savedStep) nb = savedStep % nb ∧
      numBatches 1280 128 = 10 ∧
      startEpoch true 25 (numBatches 1280 128) = 2 ∧
      startIdx (resumedStep true 25) (numBatches 1280 128) = 5 := by
  refine ⟨rfl, rfl, rfl, by decide, by decide, by decide⟩

/-- The step value at the end of one epoch that entered with the given
step: the batch loop runs idx from start_idx = step % nb to nb - 1 and
increments step once per iteration (gan.py lines 514-531). -/
def epochEndStep (nb step : Nat) : Nat := step + (nb - step % nb)

/-- The step values at the entry of each of the remaining epoch
iterations of the training loop (gan.py lines 514-531, iwacgan.py lines
323-395): each epoch starts at the step its predecessor ended with. -/
def epochStartSteps (nb : Nat) : Nat → Nat → List Nat
  | _, 0 => []
  | step, e + 1 => step :: epochStartSteps nb (epochEndStep nb step) e

theorem epochEndStep_mod (nb step : Nat) (hnb : 0 < nb) :
    epochEndStep nb step % nb = 0 := by
  have h1 : step % nb < nb := Nat.mod_lt _ hnb
  have h2 : nb * (step / nb) + step % nb = step := Nat.div_add_mod step nb
  have h3 : epochEndStep nb step = nb * (step / nb + 1) := by
    unfold epochEndStep
    rw [Nat.mul_succ]
    omega
  rw [h3]
  exact Nat.mul_mod_right _ _

theorem epochStartSteps_all_mod (nb e : Nat) (hnb : 0 < nb) :
    ∀ t, t % nb = 0 → ∀ x ∈ epochStartSteps nb t e, x % nb = 0 := by
  induction e with
  | zero => intro t ht x hx; simp [epochStartSteps] at hx
  | succ e ih =>
      intro t ht x hx
      simp only [epochStartSteps, List.mem_cons] at hx
      rcases hx with rfl | hx
      · exact ht
      · exact ih _ (epochEndStep_mod nb t hnb) x hx

/-- C10: in an uninterrupted run only the first executed epoch can start
at a non-zero batch index: every later epoch enters with a step that is
an exact multiple of num_batches, so its recomputed start_idx is 0. -/
theorem epochStartSteps_tail_mod (nb step e : Nat) (hnb : 0 < nb) :
    ∀ s ∈ (epochStartSteps nb step e).tail, startIdx s nb = 0 := by
  cases e with
  | zero => intro s hs; simp [epochStartSteps] at hs
  | succ e =>
      intro s hs
      simp only [epochStartSteps, List.tail_cons] at hs
      exact epochStartSteps_all_mod nb e hnb _ (epochEndStep_mod nb step hnb) s hs

/-- Witness for C10 with num_batches 10, resumed step 25 and three
remaining epochs: the second epoch enters at step 30, a multiple of 10. -/
theorem epochStartSteps_tail_mod_witness :
    0 < 10 ∧ 30 ∈ (epochStartSteps 10 25 3).tail ∧ startIdx 30 10 = 0 :=
  ⟨by decide, by decide,
    epochStartSteps_tail_mod 10 25 3 (by decide) 30 (by decide)⟩

/-! ### C8: checkpoint saves emitted by the training loops.

Each batch iteration increments step and then saves iff a checkpoint
directory is set, save_step is truthy and step % save_step == 0
(gan.py lines 531-535, iwacgan.py lines 395-399, discogan.py lines
455-459).  A loop run is abstracted by its start step and its total
number of batch iterations; the list collects the step values at which
a save happens, in order. -/

/-- Saves emitted inside the batch loop over n iterations starting from
the given step value. -/
def iterSaves (ckpt : Bool) (saveStep : Nat) : Nat → Nat → List Nat
  | _, 0 => []
  | step, n + 1 =>
    (if ckpt ∧ saveStep ≠ 0 ∧ (step + 1) % saveStep = 0 then [step + 1] else [])
      ++ iterSaves ckpt saveStep (step + 1) n

/-- Saves of a full GAN.train run: the in-loop saves followed by the
unconditional final save when a checkpoint directory is set
(gan.py lines 549-551). -/
def ganTrainSaves (ckpt : Bool) (saveStep step0 n : Nat) : List Nat :=
  iterSaves ckpt saveStep step0 n ++ (if ckpt then [step0 + n] else [])

/-- Saves of a full WACGAN.train run (iwacgan.py lines 415-417):
identical final-save structure to GAN.train. -/
def wacganTrainSaves (ckpt : Bool) (saveStep step0 n : Nat) : List Nat :=
  iterSaves ckpt saveStep step0 n ++ (if ckpt then [step0 + n] else [])

/-- Saves of a full DiscoGAN.train run: the loop ends without a final
save (discogan.py lines 438-471). -/
def discoganTrainSaves (ckpt : Bool) (saveStep step0 n : Nat) : List Nat :=
  iterSaves ckpt saveStep step0 n

theorem mem_iterSaves_mod (ckpt : Bool) (saveStep : Nat) :
    ∀ step n x, x ∈ iterSaves ckpt saveStep step n → x % saveStep = 0 := by
  intro step n
  induction n generalizing step with
  | zero => intro x hx; simp [iterSaves] at hx
  | succ n ih =>
      intro x hx
      simp only [iterSaves, List.mem_append] at hx
      rcases hx with hx | hx
      · split_ifs at hx with h
        · simp only [List.mem_singleton] at hx
          subst hx
          exact h.2.2
        · simp at hx
      · exact ih (step + 1) x hx

/-- C8: with a checkpoint directory set, GAN.train and WACGAN.train end
with a forced save at the final step value regardless of the save_step
boundary, while DiscoGAN.train performs no such final save: whenever the
final step is not on a save_step boundary it is absent from DiscoGAN's
save trace. -/
theorem finalSave_variants (saveStep step0 n : Nat) :
    (ganTrainSaves true saveStep step0 n).getLast? = some (step0 + n) ∧
      (wacganTrainSaves true saveStep step0 n).getLast? = some (step0 + n) ∧
      ((step0 + n) % saveStep ≠ 0 →
        (step0 + n) ∉ discoganTrainSaves true saveStep step0 n) := by
  refine ⟨?_, ?_, ?_⟩
  · unfold ganTrainSaves
    rw [if_pos rfl, List.getLast?_append]
    rfl
  · unfold wacganTrainSaves
    rw [if_pos rfl, List.getLast?_append]
    rfl
  · intro hmod hmem
    exact hmod (mem_iterSaves_mod true saveStep step0 n _ hmem)

/-- Witness for C8 with save_step 500 after 25 total iterations from
step 0: 25 is not a save boundary, GAN and WACGAN still save at 25, and
DiscoGAN does not. -/
theorem finalSave_variants_witness :
    (25 : Nat) % 500 ≠ 0 ∧ 25 ∉ discoganTrainSaves true 500 0 25 :=
  ⟨by decide, (finalSave_variants 500 0 25).2.2 (by decide)⟩

/-! ### C9: the per-batch effects of the three training loops
(gan.py lines 520-543, discogan.py lines 444-467, iwacgan.py lines
369-407). -/

/-- The sample_step argument: either an integer stride or an explicit
collection of step numbers. -/
inductive SampleSpec where
  | stride (n : Nat)
  | explicitSteps (l : List Nat)
  deriving Repr, DecidableEq

/-- Truthiness-guarded sampling test of all three loops: for an integer
stride, sample_step must be truthy (nonzero) and divide the step; for an
explicit collection the step must be a member. -/
def sampleTrigger : SampleSpec → Nat → Bool
  | .stride n, s => n ≠ 0 ∧ s % n = 0
  | .explicitSteps l, s => s ∈ l

/-- Observable effects of one batch iteration: the step tag of the
emitted summary record (none when no record is written), the step
counter after the iteration, whether a checkpoint was saved, whether a
sample was produced, and which parameter partitions were updated. -/
structure BatchEffects where
  summaryStep : Option Nat
  newStep : Nat
  saved : Bool
  sampled : Bool
  dUpdated : Bool
  gUpdated : Bool
  deriving Repr, DecidableEq

/-- One batch iteration of GAN.train (gan.py lines 520-543): both
optimizers run, the summary is written whenever a writer is attached,
then step increments and the save/sample conditions are tested. -/
def ganBatchIter (writer ckpt : Bool) (saveStep : Nat) (sampleFn : Bool)
    (sspec : SampleSpec) (step : Nat) : BatchEffects :=
  { summaryStep := if writer then some step else none
    newStep := step + 1
    saved := ckpt ∧ saveStep ≠ 0 ∧ (step + 1) % saveStep = 0
    sampled := sampleFn ∧ sampleTrigger sspec (step + 1)
    dUpdated := true
    gUpdated := true }

/-- One batch iteration of DiscoGAN.train (discogan.py lines 444-467):
identical effect structure to GAN.train. -/
def discoganBatchIter (writer ckpt : Bool) (saveStep : Nat) (sampleFn : Bool)
    (sspec : SampleSpec) (step : Nat) : BatchEffects :=
  { summaryStep := if writer then some step else none
    newStep := step + 1
    saved := ckpt ∧ saveStep ≠ 0 ∧ (step + 1) % saveStep = 0
    sampled := sampleFn ∧ sampleTrigger sspec (step + 1)
    dUpdated := true
    gUpdated := true }

/-- One batch iteration of WACGAN.train (iwacgan.py lines 369-407): on a
discriminator-only step train_D returns None, so the writer condition
(self.writer and summary_str) fails and no summary record is emitted;
the generator is updated only on joint steps. -/
def wacganBatchIter (c : SchedCfg) (writer ckpt : Bool) (saveStep : Nat)
    (sampleFn : Bool) (sspec : SampleSpec) (step : Nat) : BatchEffects :=
  { summaryStep := if writer ∧ decideStep c step then some step else none
    newStep := step + 1
    saved := ckpt ∧ saveStep ≠ 0 ∧ (step + 1) % saveStep = 0
    sampled := sampleFn ∧ sampleTrigger sspec (step + 1)
    dUpdated := true
    gUpdated := decideStep c step }

/-- Counterexample to C9 as stated: at the source's default improved-
Wasserstein configuration (d_iters 5, d_high_iters 0,
d_intial_high_rounds 25, d_step_high_rounds 500), step 0 is a
discriminator-only step, and the batch iteration with a writer attached
emits no summary record, against the claim that one tagged with the
current step is always emitted. -/
theorem wacganBatchIter_no_summary_counterexample :
    (wacganBatchIter ⟨5, 0, 25, 500⟩ true true 500 true (.stride 100) 0).summaryStep
        = none ∧
      (wacganBatchIter ⟨5, 0, 25, 500⟩ true true 500 true (.stride 100) 0).dUpdated
        = true := by
  refine ⟨?_, rfl⟩
  rfl

/-- C9 (amended): in every batch iteration of every variant, with a
positive save_step and an attached sampling callback, the summary record
tagged with the current step is emitted iff a writer is attached (and in
the improved-Wasserstein variant additionally only on joint-update
iterations), the step is then incremented, a checkpoint is saved iff
the incremented step is on a save_step boundary with a checkpoint
directory set, a sample is produced iff the incremented step hits the
stride or belongs to the explicit step set, and the GAN and DiscoGAN
variants update both parameter partitions jointly every step. -/
theorem batchIter_effects (c : SchedCfg) (writer ckpt : Bool)
    (saveStep : Nat) (hss : 0 < saveStep) (sspec : SampleSpec) (step : Nat) :
    ((ganBatchIter writer ckpt saveStep true sspec step).summaryStep = some step
        ↔ writer = true) ∧
      (ganBatchIter writer ckpt saveStep true sspec step).newStep = step + 1 ∧
      ((ganBatchIter writer ckpt saveStep true sspec step).saved = true
        ↔ ckpt = true ∧ (step + 1) % saveStep = 0) ∧
      ((ganBatchIter writer ckpt saveStep true sspec step).sampled = true
        ↔ sampleTrigger sspec (step + 1) = true) ∧
      (ganBatchIter writer ckpt saveStep true sspec step).dUpdated = true ∧
      (ganBatchIter writer ckpt saveStep true sspec step).gUpdated = true ∧
      discoganBatchIter writer ckpt saveStep true sspec step
        = ganBatchIter writer ckpt saveStep true sspec step ∧
      ((wacganBatchIter c writer ckpt saveStep true sspec step).summaryStep
          = some step ↔ writer = true ∧ decideStep c step = true) ∧
      (wacganBatchIter c writer ckpt saveStep true sspec step).newStep
        = step + 1 ∧
      ((wacganBatchIter c writer ckpt saveStep true sspec step).saved = true
        ↔ ckpt = true ∧ (step + 1) % saveStep = 0) ∧
      ((wacganBatchIter c writer ckpt saveStep true sspec step).sampled = true
        ↔ sampleTrigger sspec (step + 1) = true) ∧
      (wacganBatchIter c writer ckpt saveStep true sspec step).dUpdated = true ∧
      (wacganBatchIter c writer ckpt saveStep true sspec step).gUpdated
        = decideStep c step := by
  have hs0 : saveStep ≠ 0 := by omega
  unfold ganBatchIter discoganBatchIter wacganBatchIter
  refine ⟨?_, rfl, ?_, ?_, rfl, rfl, rfl, ?_, rfl, ?_, ?_, rfl, rfl⟩ <;>
    simp [hs0]

/-- Witness for the amended C9 at a concrete configuration: writer
attached, checkpoint directory set, save_step 500, stride 100, step 4
(a joint-update step of the default improved-Wasserstein config). -/
theorem batchIter_effects_witness :
    (wacganBatchIter ⟨5, 0, 25, 500⟩ true true 500 true (.stride 100) 4).summaryStep
        = some 4 :=
  ((batchIter_effects ⟨5, 0, 25, 500⟩ true true 500 (by decide)
      (.stride 100) 4).2.2.2.2.2.2.2.1).mpr ⟨rfl, by decide⟩

/-! ### C5: the improved-Wasserstein loss assembly
(WACGAN._build_losses, iwacgan.py lines 159-208).

Float tensors are lists of rationals; tf.reduce_mean is sum over
length.  The critic outputs outputs_d are used directly: the
discriminators are built with activation_fn=None (iwacgan.py lines 129
and 137), so no sigmoid is applied. -/

/-- tf.reduce_mean over a rank-1 tensor. -/
def tfMean (xs : List ℚ) : ℚ := xs.sum / xs.length

/-- tf.add_n(ops) if ops else 0.0, the regularization-loss assembly of
both partitions (iwacgan.py lines 165 and 205). -/
def addN (ops : List ℚ) : ℚ := if ops.isEmpty then 0 else ops.sum

/-- g_loss = -reduce_mean(d_fake.outputs_d) (iwacgan.py line 161). -/
def wacgan_g_loss (dFakeOut : List ℚ) : ℚ := -tfMean dFakeOut

/-- d_loss_real = reduce_mean(d_real.outputs_d) (iwacgan.py line 181). -/
def wacgan_d_loss_real (dRealOut : List ℚ) : ℚ := tfMean dRealOut

/-- d_loss_fake = reduce_mean(d_fake.outputs_d) (iwacgan.py line 182). -/
def wacgan_d_loss_fake (dFakeOut : List ℚ) : ℚ := tfMean dFakeOut

/-- d_loss = d_loss_fake - d_loss_real (iwacgan.py line 183). -/
def wacgan_d_loss (dRealOut dFakeOut : List ℚ) : ℚ :=
  wacgan_d_loss_fake dFakeOut - wacgan_d_loss_real dRealOut

/-- g_total_loss = g_loss + g_c_loss + g_reg_loss (iwacgan.py line 172),
with the classification loss a scalar parameter and the regularization
loss assembled from the partition's registered terms. -/
def wacgan_g_total_loss (dFakeOut : List ℚ) (g_c_loss : ℚ)
    (gRegOps : List ℚ) : ℚ :=
  wacgan_g_loss dFakeOut + g_c_loss + addN gRegOps

/-- d_total_loss = d_loss + d_c_loss + d_grad_loss + d_reg_loss
(iwacgan.py lines 207-208). -/
def wacgan_d_total_loss (dRealOut dFakeOut : List ℚ)
    (d_c_loss d_grad_loss : ℚ) (dRegOps : List ℚ) : ℚ :=
  wacgan_d_loss dRealOut dFakeOut + d_c_loss + d_grad_loss + addN dRegOps

/-- C5: the critic loss is mean(D(fake)) - mean(D(real)) on the raw
critic outputs, the generator adversarial loss is -mean(D(fake)), the
totals are assembled additively in the stated order, and each
regularization term is 0 when no regularization losses are registered
for its partition. -/
theorem wacgan_loss_assembly (dRealOut dFakeOut : List ℚ)
    (d_c_loss d_grad_loss g_c_loss : ℚ) (dRegOps gRegOps : List ℚ) :
    wacgan_d_loss dRealOut dFakeOut = tfMean dFakeOut - tfMean dRealOut ∧
      wacgan_g_loss dFakeOut = -tfMean dFakeOut ∧
      wacgan_d_total_loss dRealOut dFakeOut d_c_loss d_grad_loss dRegOps
        = (tfMean dFakeOut - tfMean dRealOut) + d_c_loss + d_grad_loss
          + addN dRegOps ∧
      wacgan_g_total_loss dFakeOut g_c_loss gRegOps
        = -tfMean dFakeOut + g_c_loss + addN gRegOps ∧
      addN ([] : List ℚ) = 0 :=
  ⟨rfl, rfl, rfl, rfl, rfl⟩

/-! ### C6: the gradient penalty
(iwacgan.py lines 147-148 and 185-191).

The interpolate X_hat = X * epsilon + g.activations * (1 - epsilon)
broadcasts the per-sample epsilon of shape (batch, 1) across the
feature axis; the penalty takes, per sample, the 2-norm of the critic
gradient over the feature axis (reduce_sum on axis 1). -/

/-- One sample of X_hat: x * eps + g * (1 - eps) elementwise with the
sample's scalar epsilon (iwacgan.py lines 147-148). -/
noncomputable def xHatRow (eps : ℝ) (x g : List ℝ) : List ℝ :=
  List.zipWith (fun a b => a * eps + b * (1 - eps)) x g

/-- The whole interpolated batch, one epsilon per sample. -/
noncomputable def xHat (X G : List (List ℝ)) (eps : List ℝ) : List (List ℝ) :=
  List.zipWith (fun p e => xHatRow e p.1 p.2) (X.zip G) eps

/-- tf.reduce_mean over a rank-1 real tensor. -/
noncomputable def tfMeanR (xs : List ℝ) : ℝ := xs.sum / xs.length

/-- Per-sample gradient 2-norm: sqrt(reduce_sum(square(grad), 1))
(iwacgan.py line 191). -/
noncomputable def l2norm (g : List ℝ) : ℝ :=
  Real.sqrt ((g.map fun x => x ^ 2).sum)

/-- d_grad_loss = d_lambda * reduce_mean(square(norm - 1))
(iwacgan.py lines 189-191). -/
noncomputable def wacgan_d_grad_loss (lam : ℝ) (grads : List (List ℝ)) : ℝ :=
  lam * tfMeanR (grads.map fun g => (l2norm g - 1) ^ 2)

/-- C6: for a nonempty batch in which the critic gradient at every
interpolated sample has 2-norm exactly 1, the gradient penalty is
exactly 0. -/
theorem wacgan_d_grad_loss_unit_norm (lam : ℝ) (grads : List (List ℝ))
    (hne : grads ≠ []) (h1 : ∀ g ∈ grads, l2norm g = 1) :
    wacgan_d_grad_loss lam grads = 0 := by
  unfold wacgan_d_grad_loss
  have hmap : grads.map (fun g => (l2norm g - 1) ^ 2)
      = grads.map fun _ => (0 : ℝ) := by
    refine List.map_congr_left ?_
    intro g hg
    rw [h1 g hg]
    ring
  rw [hmap]
  have hsum : (grads.map fun _ => (0 : ℝ)).sum = 0 := by
    simp
  simp [tfMeanR, hsum]

/-- Witness for C6: a single-sample batch with gradient (3/5, 4/5),
whose 2-norm is 1, yields a zero penalty at lambda = 10. -/
theorem wacgan_d_grad_loss_unit_norm_witness :
    wacgan_d_grad_loss 10 [[3 / 5, 4 / 5]] = 0 := by
  refine wacgan_d_grad_loss_unit_norm 10 [[3 / 5, 4 / 5]] (by simp) ?_
  intro g hg
  simp only [List.mem_singleton] at hg
  subst hg
  unfold l2norm
  have h : (([(3 : ℝ) / 5, 4 / 5].map fun x => x ^ 2).sum) = 1 := by
    norm_num
  rw [h, Real.sqrt_one]

/-! ### C7: real-label construction with label smoothing.

Binary case: GAN._build_losses (gan.py lines 410-414) and
DiscoGAN._build_losses (discogan.py lines 296-300, where the tensor is
built once from the x-domain discriminator shape and reused for both
domains at lines 305 and 317).  Categorical case: WACGAN._build_losses
(iwacgan.py lines 193-197). -/

/-- tf.ones_like over a rank-1 tensor. -/
def onesLike (xs : List ℚ) : List ℚ := xs.map fun _ => 1

/-- labels_real of the binary variants: ones_like(outputs) - s when
s > 0, else ones_like(outputs). -/
def binaryLabelsReal (s : ℚ) (outs : List ℚ) : List ℚ :=
  if s > 0 then (onesLike outs).map (fun v => v - s) else onesLike outs

/-- tf.one_hot(y, depth) over one label. -/
def oneHot (y K : Nat) : List ℚ :=
  (List.range K).map fun j => if j = y then 1 else 0

/-- labels_c_real of the auxiliary classifier: one_hot * (1 - s) + s/K
elementwise when s > 0, else the exact one-hot row
(iwacgan.py lines 193-197). -/
def catLabelsReal (s : ℚ) (K y : Nat) : List ℚ :=
  if s > 0 then (oneHot y K).map fun v => v * (1 - s) + s / K
  else oneHot y K

/-- C7: with smoothing s > 0 every entry of the binary real-label tensor
is 1 - s and entry j of the categorical tensor is
(1 - s) * one_hot(j) + s / num_classes; with s = 0 the binary labels are
exactly the all-ones tensor and the categorical labels the exact
one-hot encoding. -/
theorem labelSmoothing (s : ℚ) (outs : List ℚ) (K y : Nat) :
    (s > 0 → ∀ v ∈ binaryLabelsReal s outs, v = 1 - s) ∧
      (s = 0 → binaryLabelsReal s outs = onesLike outs) ∧
      (s > 0 → ∀ j, j < K →
        (catLabelsReal s K y)[j]?
          = some ((1 - s) * (if j = y then 1 else 0) + s / K)) ∧
      (s = 0 → catLabelsReal s K y = oneHot y K) := by
  refine ⟨?_, ?_, ?_, ?_⟩
  · intro hs v hv
    simp only [binaryLabelsReal, if_pos hs, onesLike, List.map_map,
      List.mem_map, Function.comp] at hv
    obtain ⟨x, _, hx⟩ := hv
    exact hx.symm
  · intro hs
    simp [binaryLabelsReal, hs]
  · intro hs j hj
    simp only [catLabelsReal, if_pos hs, oneHot, List.map_map]
    rw [List.getElem?_map, List.getElem?_range hj]
    by_cases hjy : j = y <;> simp [hjy]
  · intro hs
    simp [catLabelsReal, hs]

/-- Witness for C7 at s = 1/4, a batch of one critic output, 4 classes
and true label 2: the zero-smoothing conjunct and the entry formula at
index 0. -/
theorem labelSmoothing_witness :
    binaryLabelsReal 0 [7] = onesLike [7] ∧
      (catLabelsReal (1 / 4) 4 2)[0]?
        = some ((1 - 1 / 4) * (if (0 : Nat) = 2 then 1 else 0) + (1 / 4) / 4) :=
  ⟨(labelSmoothing 0 [7] 4 2).2.1 rfl,
    (labelSmoothing (1 / 4) [7] 4 2).2.2.1 (by norm_num) 0 (by norm_num)⟩

end DeepNetworks
